import Mathlib

/-!
Verification of the per-camera face-tracking/steering logic of
`views/widgets/camera_widget.py` (class `CameraWidget`).

The embedding mirrors the Python source:
* `CameraState` holds the mutable per-camera fields of `CameraWidget`
  that the tracking logic reads and writes.
* `ingest` is the detection loop at the top of `draw_on_frame`.
* `track_face` is `CameraWidget.track_face`; its PTZ block is factored
  into `ptz_dispatch` (the leading `stop` `if` plus the directional
  `if/elif` chain, each branch guarded by its own `last_request` check,
  exactly as in the source).
* `draw_on_frame` is `CameraWidget.draw_on_frame` (FPS bookkeeping and
  pixel drawing, which never touch tracking state, are omitted).
* The opaque dlib correlation tracker is modelled by the box it was last
  started on / predicted; the box `update`/`get_position` would yield for
  the current frame is passed in as the oracle argument `pred`.
* Python `int(a / b)` on nonnegative values is floor division, embedded
  as integer division on exact rationals.
* A Python exception is modelled by the `error` field of a result
  record; the state carried alongside is the state at the raise point.
-/

/-- A dlib-style rectangle, with the field names the source uses for the
tracked box: `x = left`, `y = top`, `w = right`, `h = bottom`. -/
structure Box where
  x : Int
  y : Int
  w : Int
  h : Int
  deriving DecidableEq, Repr

/-- The discrete steering commands recorded in `last_request`. -/
inductive PTZCommand where
  | stop | up | down | left | right | up_left | up_right | down_left | down_right
  deriving DecidableEq, Repr

/-- One entry of the recognition snapshot: a face location
`(top, right, bottom, left)` with its label and confidence string. -/
structure Detection where
  top : Int
  right : Int
  bottom : Int
  left : Int
  name : String
  confidence : String
  deriving DecidableEq, Repr

/-- The internal state of the dlib correlation tracker: the box it was
last started on or last predicted, or `none` for a freshly constructed,
never-seeded tracker. -/
abbrev TrackerState := Option Box

/-- The tracking-related mutable fields of `CameraWidget`. `tracker` is
`some _` whenever the dlib tracker object exists (it is allocated in
`__init__`). `has_ptz` is `ptz_controller is not None`. -/
structure CameraState where
  track_started : Bool
  temp_tracked_name : Option String
  track_x : Option Int
  track_y : Option Int
  track_w : Option Int
  track_h : Option Int
  is_tracking : Bool
  tracked_name : Option String
  has_ptz : Bool
  ptz_is_usb : Bool
  last_request : Option PTZCommand
  tracker : Option TrackerState
  deriving DecidableEq, Repr

/-- `CameraWidget.__init__`: tracking fields after construction. The
dlib tracker object is created unconditionally (`self.tracker =
dlib.correlation_tracker()`), unseeded. -/
def init_state (hp usb : Bool) : CameraState where
  track_started := false
  temp_tracked_name := none
  track_x := none
  track_y := none
  track_w := none
  track_h := none
  is_tracking := false
  tracked_name := none
  has_ptz := hp
  ptz_is_usb := usb
  last_request := none
  tracker := some none

/-- `min_x = int(frame.shape[1] / 9.2)`. -/
def min_x (fw : Nat) : Int := (10 * (fw : Int)) / 92

/-- `max_x = int(frame.shape[1] / 1.2)`. -/
def max_x (fw : Nat) : Int := (10 * (fw : Int)) / 12

/-- `min_y = int(frame.shape[0] / 18)`. -/
def min_y (fh : Nat) : Int := (fh : Int) / 18

/-- `max_y = int(frame.shape[0] / 1.6)`. -/
def max_y (fh : Nat) : Int := (10 * (fh : Int)) / 16

/-- The directional `if/elif` chain of `track_face` (lines 318-380): the
first branch whose spatial condition holds *and* whose debounce guard
`self.last_request != "..."` passes. A failed guard falls through to the
next `elif`, exactly as in the source. -/
def chain_cmd (last : Option PTZCommand) (mnx mxx mny mxy : Int) (b : Box) :
    Option PTZCommand :=
  if b.y < mny ∧ b.x < mnx ∧ last ≠ some PTZCommand.up_left then
    some PTZCommand.up_left
  else if b.y < mny ∧ b.w > mxx ∧ last ≠ some PTZCommand.up_right then
    some PTZCommand.up_right
  else if b.h > mxy ∧ b.x < mnx ∧ last ≠ some PTZCommand.down_left then
    some PTZCommand.down_left
  else if b.h > mxy ∧ b.w > mxx ∧ last ≠ some PTZCommand.down_right then
    some PTZCommand.down_right
  else if b.y < mny ∧ last ≠ some PTZCommand.up then
    some PTZCommand.up
  else if b.h > mxy ∧ last ≠ some PTZCommand.down then
    some PTZCommand.down
  else if b.x < mnx ∧ last ≠ some PTZCommand.left then
    some PTZCommand.left
  else if b.w > mxx ∧ last ≠ some PTZCommand.right then
    some PTZCommand.right
  else none

/-- The standalone `stop` `if` of `track_face` (lines 310-316): inside
the dead zone and not already stopped, dispatch a stop and record it. -/
def stop_step (s : CameraState) (mnx mxx mny mxy : Int) (b : Box) :
    CameraState × List PTZCommand :=
  if b.x > mnx ∧ b.w < mxx ∧ b.y > mny ∧ b.h < mxy ∧
      s.last_request ≠ some PTZCommand.stop then
    ({ s with last_request := some PTZCommand.stop }, [PTZCommand.stop])
  else (s, [])

/-- Dispatch the command the directional chain selects (if any) and
record it in `last_request`, appending to the commands already sent. -/
def chain_step (s : CameraState) (cs : List PTZCommand) (mnx mxx mny mxy : Int)
    (b : Box) : CameraState × List PTZCommand :=
  match chain_cmd s.last_request mnx mxx mny mxy b with
  | some c => ({ s with last_request := some c }, cs ++ [c])
  | none => (s, cs)

/-- The PTZ block of `track_face` (lines 309-380): guarded by
`ptz_controller is not None`; first the standalone `stop` `if`
(line 310), then the directional chain, which reads the `last_request`
value as updated by the `stop` branch. Returns the new state and the
list of actuator commands dispatched. -/
def ptz_dispatch (s : CameraState) (mnx mxx mny mxy : Int) (b : Box) :
    CameraState × List PTZCommand :=
  if s.has_ptz then
    chain_step (stop_step s mnx mxx mny mxy b).1 (stop_step s mnx mxx mny mxy b).2
      mnx mxx mny mxy b
  else (s, [])

/-- Result of one `track_face` call: the state when the call returns (or
raises), the actuator commands dispatched, the box the PTZ block
classified (`x, y, w, h` after a possible reassignment from the tracker
prediction), and the Python exception, if one was raised. -/
structure TFResult where
  state : CameraState
  dispatches : List PTZCommand
  steered : Box
  error : Option String
  deriving DecidableEq, Repr

/-- Lines 287-292: if no tracker has been started yet, start it on the
cached box and mark `track_started`. -/
def seed_if_unstarted (s : CameraState) (x y w h : Int) : CameraState :=
  if s.track_started = false then
    { s with tracker := some (some ⟨x, y, w, h⟩), track_started := true }
  else s

/-- Lines 293-307: if the snapshot matched this frame
(`temp_tracked_name == tracked_name`), restart the tracker on the
detection box and steer on it; otherwise advance the tracker
(`update`/`get_position`) and steer on the prediction `pred`. The
predicted coordinates overwrite only the local variables `x, y, w, h`,
never `track_x/track_y/track_w/track_h`. -/
def reseed_or_predict (s : CameraState) (x y w h : Int) (pred : Box) :
    CameraState × Box :=
  if s.temp_tracked_name = s.tracked_name then
    ({ s with tracker := some (some ⟨x, y, w, h⟩) }, (⟨x, y, w, h⟩ : Box))
  else
    ({ s with tracker := some (some pred) }, pred)

/-- `CameraWidget.track_face(frame, x, y, w, h)`. `fw, fh` are
`frame.shape[1]`, `frame.shape[0]`; `pred` is the box the dlib tracker
would predict for this frame (`get_position` after `update`). The call
raises `AttributeError` at `self.tracked_name.upper()` (line 285) when
`tracked_name` is `None`, before any state is mutated. -/
def track_face (s : CameraState) (fw fh : Nat) (x y w h : Int) (pred : Box) :
    TFResult :=
  match s.tracked_name with
  | none =>
    { state := s, dispatches := [], steered := ⟨x, y, w, h⟩,
      error := some "AttributeError: NoneType object has no attribute upper" }
  | some _ =>
    { state :=
        (ptz_dispatch
          (reseed_or_predict (seed_if_unstarted s x y w h) x y w h pred).1
          (min_x fw) (max_x fw) (min_y fh) (max_y fh)
          (reseed_or_predict (seed_if_unstarted s x y w h) x y w h pred).2).1
      dispatches :=
        (ptz_dispatch
          (reseed_or_predict (seed_if_unstarted s x y w h) x y w h pred).1
          (min_x fw) (max_x fw) (min_y fh) (max_y fh)
          (reseed_or_predict (seed_if_unstarted s x y w h) x y w h pred).2).2
      steered := (reseed_or_predict (seed_if_unstarted s x y w h) x y w h pred).2
      error := none }

/-- The detection loop of `draw_on_frame` (lines 236-249): for every
snapshot entry whose `name` equals `tracked_name`, cache its box in
`track_x/track_y/track_w/track_h` and set `temp_tracked_name`; a later
match overwrites an earlier one. -/
def ingest_step (st : CameraState) (d : Detection) : CameraState :=
  if some d.name = st.tracked_name then
    { st with
      temp_tracked_name := some d.name
      track_x := some d.left
      track_y := some d.top
      track_w := some d.right
      track_h := some d.bottom }
  else st

/-- The detection loop of `draw_on_frame`, iterated over the snapshot. -/
def ingest (s : CameraState) (dets : List Detection) : CameraState :=
  dets.foldl ingest_step s

/-- Result of one `draw_on_frame` call: the resulting state, the
actuator commands dispatched, the box used for steering (if `track_face`
ran and returned), and the exception, if one was raised (in which case
the annotated frame is never returned to `update_image`). -/
structure FrameResult where
  state : CameraState
  dispatches : List PTZCommand
  steered : Option Box
  error : Option String
  deriving DecidableEq, Repr

/-- The tracking part of `draw_on_frame` (lines 251-254), applied to the
state after snapshot ingestion: if `is_tracking` and all four cached
coordinates are set, call `track_face` on them; on normal return clear
`temp_tracked_name` (line 254; skipped when `track_face` raises). -/
def frame_core (s1 : CameraState) (fw fh : Nat) (pred : Box) : FrameResult :=
  if s1.is_tracking then
    match s1.track_x, s1.track_y, s1.track_w, s1.track_h with
    | some x, some y, some w, some h =>
      match (track_face s1 fw fh x y w h pred).error with
      | some e =>
        { state := (track_face s1 fw fh x y w h pred).state
          dispatches := (track_face s1 fw fh x y w h pred).dispatches
          steered := none, error := some e }
      | none =>
        { state := { (track_face s1 fw fh x y w h pred).state with
                     temp_tracked_name := none }
          dispatches := (track_face s1 fw fh x y w h pred).dispatches
          steered := some (track_face s1 fw fh x y w h pred).steered
          error := none }
    | _, _, _, _ =>
      { state := { s1 with temp_tracked_name := none }, dispatches := [],
        steered := none, error := none }
  else
    { state := { s1 with temp_tracked_name := none }, dispatches := [],
      steered := none, error := none }

/-- `CameraWidget.draw_on_frame(frame)`: ingest the current snapshot
(`none` models `face_locations`/`face_names`/`confidence_list` not all
being available), then run the tracking part (`frame_core`). FPS
bookkeeping (lines 256-265) never touches tracking state and is
omitted. -/
def draw_on_frame (s : CameraState) (fw fh : Nat)
    (snapshot : Option (List Detection)) (pred : Box) : FrameResult :=
  frame_core
    (match snapshot with
      | some dets => ingest s dets
      | none => s)
    fw fh pred

/-- `CameraWidget.set_tracking()`: clear the cached box, flip
`is_tracking`; if a PTZ controller is configured, send a stop command
and clear `last_request`. -/
def set_tracking (s : CameraState) : CameraState × List PTZCommand :=
  if s.has_ptz then
    ({ s with
        track_x := none, track_y := none, track_w := none, track_h := none,
        is_tracking := !s.is_tracking, last_request := none },
      [PTZCommand.stop])
  else
    ({ s with
        track_x := none, track_y := none, track_w := none, track_h := none,
        is_tracking := !s.is_tracking },
      [])

/-- `CameraWidget.set_tracked_name(name)`: reset `track_started`, set
the identity to follow. -/
def set_tracked_name (s : CameraState) (name : Option String) : CameraState :=
  { s with track_started := false, tracked_name := name }

/-- States reachable from construction through the tracking API and
per-frame updates. -/
inductive Reachable : CameraState → Prop where
  | init (hp usb : Bool) : Reachable (init_state hp usb)
  | toggle {s : CameraState} : Reachable s → Reachable (set_tracking s).1
  | rename {s : CameraState} (name : Option String) :
      Reachable s → Reachable (set_tracked_name s name)
  | frame {s : CameraState} (fw fh : Nat) (snapshot : Option (List Detection))
      (pred : Box) : Reachable s → Reachable (draw_on_frame s fw fh snapshot pred).state

/-- The last snapshot entry whose label is `n` — the one whose box wins
in `ingest`. -/
def lastMatch (n : String) : List Detection → Option Detection
  | [] => none
  | d :: rest =>
    match lastMatch n rest with
    | some d2 => some d2
    | none => if d.name = n then some d else none

/-- The spec's §4.4 classification: the priority list
stop > up_left > up_right > down_left > down_right > up > down > left >
right, with no debounce; `none` when no zone condition holds. -/
def classify_spec (mnx mxx mny mxy : Int) (b : Box) : Option PTZCommand :=
  if b.x > mnx ∧ b.w < mxx ∧ b.y > mny ∧ b.h < mxy then some PTZCommand.stop
  else if b.y < mny ∧ b.x < mnx then some PTZCommand.up_left
  else if b.y < mny ∧ b.w > mxx then some PTZCommand.up_right
  else if b.h > mxy ∧ b.x < mnx then some PTZCommand.down_left
  else if b.h > mxy ∧ b.w > mxx then some PTZCommand.down_right
  else if b.y < mny then some PTZCommand.up
  else if b.h > mxy then some PTZCommand.down
  else if b.x < mnx then some PTZCommand.left
  else if b.w > mxx then some PTZCommand.right
  else none

/-- The box of one detection entry, in `track_face` argument order
`(x=left, y=top, w=right, h=bottom)`. -/
def boxOfDet (d : Detection) : Box := ⟨d.left, d.top, d.right, d.bottom⟩

/-! ### Concrete states and boxes used as test inputs -/

/-- A camera with a PTZ controller, tracking enabled for "alice", a
seeded tracker, and a cached box at (left 200, top 100, right 700,
bottom 500). On an 800x600 frame the dead zone is (86, 666, 33, 375),
so this box satisfies `h > max_y` and `w > max_x` only. -/
def camA : CameraState :=
  { init_state true false with
    is_tracking := true
    tracked_name := some "alice"
    track_started := true
    track_x := some 200
    track_y := some 100
    track_w := some 700
    track_h := some 500
    tracker := some (some ⟨200, 100, 700, 500⟩) }

/-- The cached box of `camA`, also used as the tracker prediction so the
box stays put across frames. -/
def boxDR : Box := ⟨200, 100, 700, 500⟩

/-- A box with `y < min_y`, `h > max_y`, `w > max_x`, `x > min_x` on an
800x600 frame. -/
def boxUR : Box := ⟨100, 10, 700, 500⟩

/-- `camA` with its cached box replaced by `boxUR`. -/
def camB : CameraState :=
  { camA with track_y := some 10, track_x := some 100 }

/-- `camA` with a non-`stop` `last_request`. -/
def camC : CameraState := { camA with last_request := some PTZCommand.up_left }

/-- `camA` after the tracked identity was cleared while the cached box
and enabled tracking remain. -/
def camNoName : CameraState := { camA with tracked_name := none }

/-- A tracker prediction that differs from `camA`'s cached box in every
coordinate. -/
def predC6 : Box := ⟨1, 2, 3, 4⟩

/-- A snapshot entry labelled "alice" at box (left 10, top 20, right 30,
bottom 40). -/
def detAlice : Detection :=
  { top := 20, right := 30, bottom := 40, left := 10, name := "alice",
    confidence := "90" }

/-! ### Basic lemmas about the embedded operations -/

lemma chain_cmd_none_of_zone (last : Option PTZCommand) (mnx mxx mny mxy : Int)
    (b : Box) (hx : b.x > mnx) (hw : b.w < mxx) (hy : b.y > mny)
    (hh : b.h < mxy) : chain_cmd last mnx mxx mny mxy b = none := by
  unfold chain_cmd
  split_ifs with h1 h2 h3 h4 h5 h6 h7 h8
  · exact absurd h1.1 (by omega)
  · exact absurd h2.1 (by omega)
  · exact absurd h3.1 (by omega)
  · exact absurd h4.1 (by omega)
  · exact absurd h5.1 (by omega)
  · exact absurd h6.1 (by omega)
  · exact absurd h7.1 (by omega)
  · exact absurd h8.1 (by omega)
  · rfl

lemma stop_step_fst (s : CameraState) (mnx mxx mny mxy : Int) (b : Box) :
    (stop_step s mnx mxx mny mxy b).1 =
      { s with last_request := (stop_step s mnx mxx mny mxy b).1.last_request } := by
  unfold stop_step; split <;> rfl

lemma chain_step_fst (s : CameraState) (cs : List PTZCommand)
    (mnx mxx mny mxy : Int) (b : Box) :
    (chain_step s cs mnx mxx mny mxy b).1 =
      { s with last_request := (chain_step s cs mnx mxx mny mxy b).1.last_request } := by
  unfold chain_step; split <;> rfl

lemma ptz_dispatch_fst (s : CameraState) (mnx mxx mny mxy : Int) (b : Box) :
    (ptz_dispatch s mnx mxx mny mxy b).1 =
      { s with last_request := (ptz_dispatch s mnx mxx mny mxy b).1.last_request } := by
  unfold ptz_dispatch chain_step stop_step
  repeat' split
  all_goals rfl

lemma ptz_dispatch_no_ptz (s : CameraState) (mnx mxx mny mxy : Int) (b : Box)
    (h : s.has_ptz = false) : ptz_dispatch s mnx mxx mny mxy b = (s, []) := by
  unfold ptz_dispatch
  rw [h]
  rfl

lemma ptz_dispatch_len (s : CameraState) (mnx mxx mny mxy : Int) (b : Box) :
    (ptz_dispatch s mnx mxx mny mxy b).2.length ≤ 1 := by
  unfold ptz_dispatch chain_step stop_step
  split
  · split_ifs with hz
    · rw [chain_cmd_none_of_zone _ _ _ _ _ _ hz.1 hz.2.1 hz.2.2.1 hz.2.2.2.1]
      simp
    · cases hc : chain_cmd s.last_request mnx mxx mny mxy b <;> simp
  · simp

lemma ptz_dispatch_tracker (s : CameraState) (mnx mxx mny mxy : Int) (b : Box) :
    (ptz_dispatch s mnx mxx mny mxy b).1.tracker = s.tracker := by
  rw [ptz_dispatch_fst]

lemma ptz_dispatch_track_x (s : CameraState) (mnx mxx mny mxy : Int) (b : Box) :
    (ptz_dispatch s mnx mxx mny mxy b).1.track_x = s.track_x := by
  rw [ptz_dispatch_fst]

lemma ptz_dispatch_track_y (s : CameraState) (mnx mxx mny mxy : Int) (b : Box) :
    (ptz_dispatch s mnx mxx mny mxy b).1.track_y = s.track_y := by
  rw [ptz_dispatch_fst]

lemma ptz_dispatch_track_w (s : CameraState) (mnx mxx mny mxy : Int) (b : Box) :
    (ptz_dispatch s mnx mxx mny mxy b).1.track_w = s.track_w := by
  rw [ptz_dispatch_fst]

lemma ptz_dispatch_track_h (s : CameraState) (mnx mxx mny mxy : Int) (b : Box) :
    (ptz_dispatch s mnx mxx mny mxy b).1.track_h = s.track_h := by
  rw [ptz_dispatch_fst]

lemma ptz_dispatch_is_tracking (s : CameraState) (mnx mxx mny mxy : Int) (b : Box) :
    (ptz_dispatch s mnx mxx mny mxy b).1.is_tracking = s.is_tracking := by
  rw [ptz_dispatch_fst]

lemma ingest_cons (s : CameraState) (d : Detection) (dets : List Detection) :
    ingest s (d :: dets) = ingest (ingest_step s d) dets := rfl

lemma ingest_step_tracker (s : CameraState) (d : Detection) :
    (ingest_step s d).tracker = s.tracker := by
  unfold ingest_step; split <;> rfl

lemma ingest_step_is_tracking (s : CameraState) (d : Detection) :
    (ingest_step s d).is_tracking = s.is_tracking := by
  unfold ingest_step; split <;> rfl

lemma ingest_step_tracked_name (s : CameraState) (d : Detection) :
    (ingest_step s d).tracked_name = s.tracked_name := by
  unfold ingest_step; split <;> rfl

lemma ingest_step_last_request (s : CameraState) (d : Detection) :
    (ingest_step s d).last_request = s.last_request := by
  unfold ingest_step; split <;> rfl

lemma ingest_tracker (dets : List Detection) : ∀ s : CameraState,
    (ingest s dets).tracker = s.tracker := by
  induction dets with
  | nil => intro s; rfl
  | cons d rest ih => intro s; rw [ingest_cons, ih, ingest_step_tracker]

lemma ingest_is_tracking (dets : List Detection) : ∀ s : CameraState,
    (ingest s dets).is_tracking = s.is_tracking := by
  induction dets with
  | nil => intro s; rfl
  | cons d rest ih => intro s; rw [ingest_cons, ih, ingest_step_is_tracking]

lemma ingest_tracked_name (dets : List Detection) : ∀ s : CameraState,
    (ingest s dets).tracked_name = s.tracked_name := by
  induction dets with
  | nil => intro s; rfl
  | cons d rest ih => intro s; rw [ingest_cons, ih, ingest_step_tracked_name]

lemma ingest_last_request (dets : List Detection) : ∀ s : CameraState,
    (ingest s dets).last_request = s.last_request := by
  induction dets with
  | nil => intro s; rfl
  | cons d rest ih => intro s; rw [ingest_cons, ih, ingest_step_last_request]

lemma lastMatch_cons_none {n : String} {d : Detection} {rest : List Detection}
    (h : lastMatch n (d :: rest) = none) :
    lastMatch n rest = none ∧ d.name ≠ n := by
  unfold lastMatch at h
  cases hr : lastMatch n rest with
  | some d2 => rw [hr] at h; exact absurd h (by simp)
  | none =>
    rw [hr] at h
    refine ⟨rfl, ?_⟩
    intro he
    rw [if_pos he] at h
    exact absurd h (by simp)

lemma ingest_no_match {n : String} (dets : List Detection) :
    ∀ s : CameraState, s.tracked_name = some n → lastMatch n dets = none →
      ingest s dets = s := by
  induction dets with
  | nil => intro s _ _; rfl
  | cons d rest ih =>
    intro s hn h
    obtain ⟨hr, hd⟩ := lastMatch_cons_none h
    have hne : ¬ (some d.name = s.tracked_name) := by
      rw [hn]
      intro he
      exact hd (Option.some.inj he)
    have hstep : ingest_step s d = s := by
      unfold ingest_step
      rw [if_neg hne]
    rw [ingest_cons, hstep]
    exact ih s hn hr

lemma ingest_lastMatch {n : String} {d : Detection} (dets : List Detection) :
    ∀ s : CameraState, s.tracked_name = some n → lastMatch n dets = some d →
      ingest s dets =
        { s with
          temp_tracked_name := some n,
          track_x := some d.left,
          track_y := some d.top,
          track_w := some d.right,
          track_h := some d.bottom } := by
  induction dets with
  | nil => intro s _ h; exact absurd h (by simp [lastMatch])
  | cons d0 rest ih =>
    intro s hn h
    rw [ingest_cons]
    cases hr : lastMatch n rest with
    | some d2 =>
      have hd2 : d2 = d := by
        unfold lastMatch at h
        rw [hr] at h
        exact Option.some.inj h
      subst hd2
      have hn' : (ingest_step s d0).tracked_name = some n := by
        rw [ingest_step_tracked_name, hn]
      rw [ih (ingest_step s d0) hn' hr]
      unfold ingest_step
      split <;> rfl
    | none =>
      have hd0 : d0.name = n ∧ d0 = d := by
        unfold lastMatch at h
        rw [hr] at h
        by_cases he : d0.name = n
        · rw [if_pos he] at h
          exact ⟨he, Option.some.inj h⟩
        · rw [if_neg he] at h
          exact absurd h (by simp)
      obtain ⟨he, hdd⟩ := hd0
      have hstep : ingest_step s d0 =
          { s with
            temp_tracked_name := some d0.name,
            track_x := some d0.left,
            track_y := some d0.top,
            track_w := some d0.right,
            track_h := some d0.bottom } := by
        unfold ingest_step
        rw [if_pos (by rw [hn, he])]
      have hnm := ingest_no_match (n := n) rest
        { s with
          temp_tracked_name := some d0.name,
          track_x := some d0.left,
          track_y := some d0.top,
          track_w := some d0.right,
          track_h := some d0.bottom } hn hr
      rw [hstep, hnm, he, hdd]

lemma track_face_eq_of_none (s : CameraState) (fw fh : Nat) (x y w h : Int)
    (pred : Box) (hn : s.tracked_name = none) :
    track_face s fw fh x y w h pred =
      { state := s, dispatches := [], steered := ⟨x, y, w, h⟩,
        error := some "AttributeError: NoneType object has no attribute upper" } := by
  unfold track_face
  rw [hn]

lemma track_face_eq_of_some (s : CameraState) (fw fh : Nat) (x y w h : Int)
    (pred : Box) (n : String) (hn : s.tracked_name = some n) :
    track_face s fw fh x y w h pred =
      { state :=
          (ptz_dispatch
            (reseed_or_predict (seed_if_unstarted s x y w h) x y w h pred).1
            (min_x fw) (max_x fw) (min_y fh) (max_y fh)
            (reseed_or_predict (seed_if_unstarted s x y w h) x y w h pred).2).1
        dispatches :=
          (ptz_dispatch
            (reseed_or_predict (seed_if_unstarted s x y w h) x y w h pred).1
            (min_x fw) (max_x fw) (min_y fh) (max_y fh)
            (reseed_or_predict (seed_if_unstarted s x y w h) x y w h pred).2).2
        steered := (reseed_or_predict (seed_if_unstarted s x y w h) x y w h pred).2
        error := none } := by
  unfold track_face
  rw [hn]

lemma frame_core_not_tracking (s1 : CameraState) (fw fh : Nat) (pred : Box)
    (h : s1.is_tracking = false) :
    frame_core s1 fw fh pred =
      { state := { s1 with temp_tracked_name := none }, dispatches := [],
        steered := none, error := none } := by
  unfold frame_core
  rw [h]
  rfl

lemma frame_core_eq (s1 : CameraState) (fw fh : Nat) (pred : Box) (x y w h : Int)
    (ht : s1.is_tracking = true) (hx : s1.track_x = some x)
    (hy : s1.track_y = some y) (hw : s1.track_w = some w)
    (hh : s1.track_h = some h) :
    frame_core s1 fw fh pred =
      match (track_face s1 fw fh x y w h pred).error with
      | some e =>
        { state := (track_face s1 fw fh x y w h pred).state
          dispatches := (track_face s1 fw fh x y w h pred).dispatches
          steered := none, error := some e }
      | none =>
        { state := { (track_face s1 fw fh x y w h pred).state with
                     temp_tracked_name := none }
          dispatches := (track_face s1 fw fh x y w h pred).dispatches
          steered := some (track_face s1 fw fh x y w h pred).steered
          error := none } := by
  unfold frame_core
  rw [ht, hx, hy, hw, hh]
  rfl

lemma draw_on_frame_some (s : CameraState) (fw fh : Nat) (dets : List Detection)
    (pred : Box) :
    draw_on_frame s fw fh (some dets) pred = frame_core (ingest s dets) fw fh pred := rfl

lemma draw_on_frame_none (s : CameraState) (fw fh : Nat) (pred : Box) :
    draw_on_frame s fw fh none pred = frame_core s fw fh pred := rfl

/-! ### Claim theorems -/

/-- C1: the debounce is broken by the `elif` fall-through. With the same
tracked box (classifying to `down_right` under the spec's priority list)
held over two consecutive per-frame updates and `lastCommand` initially
`none`, the first update dispatches `down_right` and the second update —
whose `down_right` branch is suppressed by the debounce guard — falls
through the chain and dispatches `down`: two actuator dispatches where
the claim requires exactly one. -/
theorem C1_two_dispatches_same_classification :
    classify_spec (min_x 800) (max_x 800) (min_y 600) (max_y 600) boxDR =
      some PTZCommand.down_right ∧
    camA.last_request = none ∧
    (draw_on_frame camA 800 600 (some []) boxDR).steered = some boxDR ∧
    (draw_on_frame camA 800 600 (some []) boxDR).dispatches =
      [PTZCommand.down_right] ∧
    (draw_on_frame (draw_on_frame camA 800 600 (some []) boxDR).state 800 600
      (some []) boxDR).steered = some boxDR ∧
    (draw_on_frame (draw_on_frame camA 800 600 (some []) boxDR).state 800 600
      (some []) boxDR).dispatches = [PTZCommand.down] := by
  decide

/-- C2 counterexample: a box with `h_box > max_y` and `w_box > max_x`
that also has `y < min_y` is steered as `up_right`, not `down_right`
(the up-diagonals precede `down_right` in the chain), refuting the claim
that every such box classifies as `down_right`. -/
theorem C2_counterexample :
    boxUR.h > max_y 600 ∧ boxUR.w > max_x 800 ∧
    (draw_on_frame camB 800 600 (some []) boxUR).steered = some boxUR ∧
    (draw_on_frame camB 800 600 (some []) boxUR).dispatches =
      [PTZCommand.up_right] := by
  decide

/-- C9: with `trackedIdentity = none` while a cached box and enabled
tracking remain, the per-frame update raises `AttributeError` at
`self.tracked_name.upper()` and no frame is returned — steering errors
do interrupt frame rendering at this state. -/
theorem C9_attribute_error_interrupts_rendering :
    camNoName.is_tracking = true ∧ camNoName.track_x = some 200 ∧
    camNoName.tracked_name = none ∧
    (draw_on_frame camNoName 800 600 none boxDR).error =
      some "AttributeError: NoneType object has no attribute upper" := by
  decide

/-- C4 counterexample: toggling tracking off (`set_tracking` while
enabled) leaves `track_started` true, and changing the tracked identity
(`set_tracked_name`) leaves the cached box and `last_request` untouched
— the claimed full reset to `trackActive=false`, `lastBox=none`,
`lastCommand=none` does not happen. -/
theorem C4_counterexample :
    camC.is_tracking = true ∧ camC.track_started = true ∧
    (set_tracking camC).1.is_tracking = false ∧
    (set_tracking camC).1.track_started = true ∧
    (set_tracked_name camC (some "bob")).track_x = some 200 ∧
    (set_tracked_name camC (some "bob")).last_request =
      some PTZCommand.up_left := by
  decide

/-- C6 counterexample: with no detection matching this frame, the
tracker is advanced and its prediction `predC6` is used for steering,
but `track_x/track_y/track_w/track_h` still hold the old cached box
(left 200, ...), not the predicted box — the prediction is not stored
back into the TrackState. -/
theorem C6_counterexample :
    (draw_on_frame camA 800 600 (some []) predC6).steered = some predC6 ∧
    (draw_on_frame camA 800 600 (some []) predC6).state.tracker =
      some (some predC6) ∧
    (draw_on_frame camA 800 600 (some []) predC6).state.track_x = some 200 ∧
    predC6.x ≠ (200 : Int) := by
  decide

/-- C7 counterexample: immediately after construction a
CorrelationTracker instance exists (`self.tracker =
dlib.correlation_tracker()`) while `trackActive` is false, refuting
"a CorrelationTracker instance exists iff `trackActive` is true". -/
theorem C7_counterexample :
    (init_state true false).tracker.isSome = true ∧
    (init_state true false).track_started = false := by
  decide

/-- C3 counterexample: the code truncates the dead-zone bounds with
`int(...)`: for the spec's own 800-wide example, `min_x` is the integer
86, not the exact rational `800 / 9.2 = 86.95...`. -/
theorem C3_counterexample :
    min_x 800 = 86 ∧ ((min_x 800 : ℚ) ≠ (800 : ℚ) / (9.2 : ℚ)) := by
  constructor
  · decide
  · norm_num [min_x]

/-- C3 amended: the dead-zone bounds equal the integer truncations
`⌊w/9.2⌋, ⌊w/1.2⌋, ⌊h/18⌋, ⌊h/1.6⌋` of the spec's rational constants
(not the exact rationals), and for `w ≥ 160`, `h ≥ 120` they satisfy
`min_x < max_x` and `min_y < max_y`. -/
theorem C3_truncated_bounds (fw fh : Nat) (h160 : 160 ≤ fw) (h120 : 120 ≤ fh) :
    min_x fw = ⌊(fw : ℚ) / (9.2 : ℚ)⌋ ∧
    max_x fw = ⌊(fw : ℚ) / (1.2 : ℚ)⌋ ∧
    min_y fh = ⌊(fh : ℚ) / (18 : ℚ)⌋ ∧
    max_y fh = ⌊(fh : ℚ) / (1.6 : ℚ)⌋ ∧
    min_x fw < max_x fw ∧ min_y fh < max_y fh := by
  refine ⟨?_, ?_, ?_, ?_, ?_, ?_⟩
  · rw [show ((fw:ℚ) / (9.2:ℚ)) = ((5 * fw : ℤ) : ℚ) / ((46 : ℕ) : ℚ) by
      rw [show (9.2:ℚ) = 46/5 by norm_num, div_div_eq_mul_div]; push_cast; ring,
      Rat.floor_intCast_div_natCast]
    unfold min_x
    omega
  · rw [show ((fw:ℚ) / (1.2:ℚ)) = ((5 * fw : ℤ) : ℚ) / ((6 : ℕ) : ℚ) by
      rw [show (1.2:ℚ) = 6/5 by norm_num, div_div_eq_mul_div]; push_cast; ring,
      Rat.floor_intCast_div_natCast]
    unfold max_x
    omega
  · rw [show ((fh:ℚ) / (18:ℚ)) = (((fh : ℤ)) : ℚ) / ((18 : ℕ) : ℚ) by
      push_cast; ring,
      Rat.floor_intCast_div_natCast]
    unfold min_y
    omega
  · rw [show ((fh:ℚ) / (1.6:ℚ)) = ((5 * fh : ℤ) : ℚ) / ((8 : ℕ) : ℚ) by
      rw [show (1.6:ℚ) = 8/5 by norm_num, div_div_eq_mul_div]; push_cast; ring,
      Rat.floor_intCast_div_natCast]
    unfold max_y
    omega
  · unfold min_x max_x
    omega
  · unfold min_y max_y
    omega

/-- Witness for C3 at the spec's example frame 800x600. -/
theorem C3_truncated_bounds_witness :
    min_x 800 = ⌊(800 : ℚ) / (9.2 : ℚ)⌋ ∧
    max_x 800 = ⌊(800 : ℚ) / (1.2 : ℚ)⌋ ∧
    min_y 600 = ⌊(600 : ℚ) / (18 : ℚ)⌋ ∧
    max_y 600 = ⌊(600 : ℚ) / (1.6 : ℚ)⌋ ∧
    min_x 800 < max_x 800 ∧ min_y 600 < max_y 600 := by
  have h := C3_truncated_bounds 800 600 (by norm_num) (by norm_num)
  simpa using h

/-- C10: every `set_tracking` call with a PTZ controller dispatches a
stop command and clears `last_request`, whichever way the toggle goes;
with no controller, nothing is dispatched and `last_request` keeps its
value. -/
theorem C10_toggle_always_stops (s : CameraState) :
    (s.has_ptz = true →
      (set_tracking s).2 = [PTZCommand.stop] ∧
      (set_tracking s).1.last_request = none) ∧
    (s.has_ptz = false →
      (set_tracking s).2 = [] ∧
      (set_tracking s).1.last_request = s.last_request) := by
  unfold set_tracking
  constructor
  · intro hp
    rw [if_pos hp]
    exact ⟨rfl, rfl⟩
  · intro hp
    rw [if_neg (by rw [hp]; simp)]
    exact ⟨rfl, rfl⟩

/-- Witness for C10 on a camera with a controller (`camA`, toggling
off) and one without (`init_state false false`, toggling on). -/
theorem C10_toggle_always_stops_witness :
    ((set_tracking camA).2 = [PTZCommand.stop] ∧
      (set_tracking camA).1.last_request = none) ∧
    ((set_tracking (init_state false false)).2 = [] ∧
      (set_tracking (init_state false false)).1.last_request = none) := by
  refine ⟨(C10_toggle_always_stops camA).1 rfl, ?_⟩
  have h := (C10_toggle_always_stops (init_state false false)).2 rfl
  exact h

lemma chain_cmd_ne_right (last : Option PTZCommand) (mnx mxx mny mxy : Int)
    (b : Box) (hh : b.h > mxy) (hw : b.w > mxx) :
    chain_cmd last mnx mxx mny mxy b ≠ some PTZCommand.right := by
  unfold chain_cmd
  split_ifs with h1 h2 h3 h4 h5 h6 h7 h8
  · decide
  · decide
  · decide
  · decide
  · decide
  · decide
  · decide
  · exfalso
    have e4 : last = some PTZCommand.down_right := by
      by_contra hne
      exact h4 ⟨hh, hw, hne⟩
    have e6 : last = some PTZCommand.down := by
      by_contra hne
      exact h6 ⟨hh, hne⟩
    rw [e4] at e6
    exact absurd e6 (by decide)
  · decide

/-- C2 amended: with `h_box > max_y` and `w_box > max_x`, the dispatched
command is never `right`; and when additionally the box is in neither
up zone nor left zone (`y ≥ min_y`, `x ≥ min_x`) and the previous
command is not already `down_right`, exactly `down_right` is
dispatched. (When `lastCommand = down_right` the suppressed branch falls
through and `down` can be dispatched, and when the box also lies in an
up/left zone the earlier diagonals win, which is why the claim as
stated fails.) -/
theorem C2_down_right_precedence (s : CameraState) (mnx mxx mny mxy : Int)
    (b : Box) (hp : s.has_ptz = true) (hh : b.h > mxy) (hw : b.w > mxx) :
    PTZCommand.right ∉ (ptz_dispatch s mnx mxx mny mxy b).2 ∧
    (¬ b.y < mny → ¬ b.x < mnx → s.last_request ≠ some PTZCommand.down_right →
      (ptz_dispatch s mnx mxx mny mxy b).2 = [PTZCommand.down_right]) := by
  have hstop : stop_step s mnx mxx mny mxy b = (s, []) := by
    unfold stop_step
    split_ifs with hz
    · exact absurd hz.2.2.2.1 (by omega)
    · rfl
  have hd : ptz_dispatch s mnx mxx mny mxy b = chain_step s [] mnx mxx mny mxy b := by
    unfold ptz_dispatch
    rw [if_pos hp, hstop]
  constructor
  · rw [hd]
    unfold chain_step
    cases hc : chain_cmd s.last_request mnx mxx mny mxy b with
    | none => simp
    | some c =>
      have hne := chain_cmd_ne_right s.last_request mnx mxx mny mxy b hh hw
      rw [hc] at hne
      simp only [List.nil_append, List.mem_singleton]
      intro he
      exact hne (by rw [← he])
  · intro hy hx hlr
    rw [hd]
    unfold chain_step
    have h4 : chain_cmd s.last_request mnx mxx mny mxy b =
        some PTZCommand.down_right := by
      unfold chain_cmd
      rw [if_neg (fun hc => hy hc.1), if_neg (fun hc => hy hc.1),
        if_neg (fun hc => hx hc.2.1), if_pos ⟨hh, hw, hlr⟩]
    rw [h4]
    rfl

/-- Witness for C2 at the 800x600 dead zone and the box of `boxDR`:
the dispatched command list is exactly `[down_right]`. -/
theorem C2_down_right_precedence_witness :
    (ptz_dispatch camA (min_x 800) (max_x 800) (min_y 600) (max_y 600)
      boxDR).2 = [PTZCommand.down_right] :=
  (C2_down_right_precedence camA (min_x 800) (max_x 800) (min_y 600) (max_y 600)
    boxDR (by decide) (by decide) (by decide)).2
    (by decide) (by decide) (by decide)

lemma track_face_len (s : CameraState) (fw fh : Nat) (x y w h : Int)
    (pred : Box) :
    (track_face s fw fh x y w h pred).dispatches.length ≤ 1 := by
  cases hn : s.tracked_name with
  | none =>
    rw [track_face_eq_of_none s fw fh x y w h pred hn]
    simp
  | some n =>
    rw [track_face_eq_of_some s fw fh x y w h pred n hn]
    exact ptz_dispatch_len _ _ _ _ _ _

lemma frame_core_len (s1 : CameraState) (fw fh : Nat) (pred : Box) :
    (frame_core s1 fw fh pred).dispatches.length ≤ 1 := by
  unfold frame_core
  split
  · split
    · split
      · exact track_face_len _ _ _ _ _ _ _ _
      · exact track_face_len _ _ _ _ _ _ _ _
    · simp
  · simp

/-- C8: every per-frame update dispatches at most one actuator command:
the `stop` branch's dead-zone condition contradicts every directional
condition, and the directional chain is a single `if/elif`. -/
theorem C8_at_most_one_dispatch (s : CameraState) (fw fh : Nat)
    (snapshot : Option (List Detection)) (pred : Box) :
    (draw_on_frame s fw fh snapshot pred).dispatches.length ≤ 1 := by
  cases snapshot with
  | none => rw [draw_on_frame_none]; exact frame_core_len _ _ _ _
  | some dets => rw [draw_on_frame_some]; exact frame_core_len _ _ _ _

/-- C4 amended: toggling tracking clears the cached box and, when a PTZ
controller is configured, sends stop and clears `last_request` — but it
leaves `track_started` unchanged; changing the tracked identity clears
`track_started` but leaves the cached box and `last_request` unchanged;
and while tracking is disabled no per-frame update dispatches any
actuator command. -/
theorem C4_partial_reset (s : CameraState) (name : Option String) :
    ((set_tracking s).1.track_x = none ∧ (set_tracking s).1.track_y = none ∧
      (set_tracking s).1.track_w = none ∧ (set_tracking s).1.track_h = none ∧
      (set_tracking s).1.track_started = s.track_started ∧
      (set_tracking s).1.is_tracking = !s.is_tracking ∧
      (s.has_ptz = true → (set_tracking s).1.last_request = none) ∧
      (s.has_ptz = false → (set_tracking s).1.last_request = s.last_request)) ∧
    ((set_tracked_name s name).track_started = false ∧
      (set_tracked_name s name).track_x = s.track_x ∧
      (set_tracked_name s name).track_y = s.track_y ∧
      (set_tracked_name s name).track_w = s.track_w ∧
      (set_tracked_name s name).track_h = s.track_h ∧
      (set_tracked_name s name).last_request = s.last_request) ∧
    (∀ (s' : CameraState) (fw fh : Nat) (snap : Option (List Detection))
        (pred : Box), s'.is_tracking = false →
      (draw_on_frame s' fw fh snap pred).dispatches = [] ∧
      (draw_on_frame s' fw fh snap pred).state.is_tracking = false) := by
  refine ⟨?_, ?_, ?_⟩
  · unfold set_tracking
    split_ifs with hp
    · exact ⟨rfl, rfl, rfl, rfl, rfl, rfl, fun _ => rfl,
        fun hq => absurd hp (by rw [hq]; simp)⟩
    · exact ⟨rfl, rfl, rfl, rfl, rfl, rfl, fun hq => absurd hq hp, fun _ => rfl⟩
  · exact ⟨rfl, rfl, rfl, rfl, rfl, rfl⟩
  · intro s' fw fh snap pred hI
    cases snap with
    | none =>
      rw [draw_on_frame_none, frame_core_not_tracking _ _ _ _ hI]
      exact ⟨rfl, hI⟩
    | some dets =>
      have hI' : (ingest s' dets).is_tracking = false := by
        rw [ingest_is_tracking]; exact hI
      rw [draw_on_frame_some, frame_core_not_tracking _ _ _ _ hI']
      exact ⟨rfl, hI'⟩

/-- Witness for C4 amended at `camC` (tracking on, PTZ configured,
cached box present): toggling off clears the box but keeps
`track_started`; renaming keeps the box; a disabled state dispatches
nothing. -/
theorem C4_partial_reset_witness :
    (set_tracking camC).1.track_x = none ∧
    (set_tracking camC).1.track_started = camC.track_started ∧
    (set_tracking camC).1.last_request = none ∧
    (set_tracked_name camC (some "bob")).track_x = camC.track_x ∧
    (draw_on_frame (set_tracking camC).1 800 600 none predC6).dispatches = [] := by
  refine ⟨(C4_partial_reset camC (some "bob")).1.1,
    (C4_partial_reset camC (some "bob")).1.2.2.2.2.1,
    (C4_partial_reset camC (some "bob")).1.2.2.2.2.2.2.1 rfl,
    (C4_partial_reset camC (some "bob")).2.1.2.1,
    ((C4_partial_reset camC (some "bob")).2.2 (set_tracking camC).1 800 600 none
      predC6 (by decide)).1⟩

lemma set_tracking_tracker (s : CameraState) :
    (set_tracking s).1.tracker = s.tracker := by
  unfold set_tracking
  split <;> rfl

lemma set_tracked_name_tracker (s : CameraState) (name : Option String) :
    (set_tracked_name s name).tracker = s.tracker := rfl

lemma track_face_tracker_isSome (s : CameraState) (fw fh : Nat) (x y w h : Int)
    (pred : Box) (hs : s.tracker.isSome = true) :
    (track_face s fw fh x y w h pred).state.tracker.isSome = true := by
  cases hn : s.tracked_name with
  | none =>
    rw [track_face_eq_of_none s fw fh x y w h pred hn]
    exact hs
  | some n =>
    rw [track_face_eq_of_some s fw fh x y w h pred n hn]
    show (ptz_dispatch _ _ _ _ _ _).1.tracker.isSome = true
    rw [ptz_dispatch_tracker]
    unfold reseed_or_predict
    split <;> rfl

lemma frame_core_tracker_isSome (s1 : CameraState) (fw fh : Nat) (pred : Box)
    (hs : s1.tracker.isSome = true) :
    (frame_core s1 fw fh pred).state.tracker.isSome = true := by
  unfold frame_core
  split
  · split
    · split
      · exact track_face_tracker_isSome _ _ _ _ _ _ _ _ hs
      · exact track_face_tracker_isSome _ _ _ _ _ _ _ _ hs
    · exact hs
  · exact hs

lemma draw_on_frame_tracker_isSome (s : CameraState) (fw fh : Nat)
    (snap : Option (List Detection)) (pred : Box)
    (hs : s.tracker.isSome = true) :
    (draw_on_frame s fw fh snap pred).state.tracker.isSome = true := by
  cases snap with
  | none => rw [draw_on_frame_none]; exact frame_core_tracker_isSome _ _ _ _ hs
  | some dets =>
    rw [draw_on_frame_some]
    exact frame_core_tracker_isSome _ _ _ _ (by rw [ingest_tracker]; exact hs)

/-- C7 amended: in every state reachable from construction through
`set_tracking`, `set_tracked_name` and per-frame updates, a
CorrelationTracker instance exists — regardless of `trackActive`, which
only records whether `start_track` has run; the claimed "exists iff
trackActive" fails already at construction. -/
theorem C7_tracker_always_exists (s : CameraState) (hr : Reachable s) :
    s.tracker.isSome = true := by
  induction hr with
  | init hp usb => rfl
  | toggle _ ih => rw [set_tracking_tracker]; exact ih
  | rename name _ ih => rw [set_tracked_name_tracker]; exact ih
  | frame fw fh snapshot pred _ ih =>
    exact draw_on_frame_tracker_isSome _ fw fh snapshot pred ih

/-- Witness for C7 at the freshly constructed state. -/
theorem C7_tracker_always_exists_witness :
    (init_state true false).tracker.isSome = true :=
  C7_tracker_always_exists (init_state true false) (Reachable.init true false)

lemma seed_temp (s : CameraState) (x y w h : Int) :
    (seed_if_unstarted s x y w h).temp_tracked_name = s.temp_tracked_name := by
  unfold seed_if_unstarted; split <;> rfl

lemma seed_tracked_name (s : CameraState) (x y w h : Int) :
    (seed_if_unstarted s x y w h).tracked_name = s.tracked_name := by
  unfold seed_if_unstarted; split <;> rfl

lemma seed_track_x (s : CameraState) (x y w h : Int) :
    (seed_if_unstarted s x y w h).track_x = s.track_x := by
  unfold seed_if_unstarted; split <;> rfl

lemma seed_track_y (s : CameraState) (x y w h : Int) :
    (seed_if_unstarted s x y w h).track_y = s.track_y := by
  unfold seed_if_unstarted; split <;> rfl

lemma seed_track_w (s : CameraState) (x y w h : Int) :
    (seed_if_unstarted s x y w h).track_w = s.track_w := by
  unfold seed_if_unstarted; split <;> rfl

lemma seed_track_h (s : CameraState) (x y w h : Int) :
    (seed_if_unstarted s x y w h).track_h = s.track_h := by
  unfold seed_if_unstarted; split <;> rfl

lemma reseed_pos (s : CameraState) (x y w h : Int) (pred : Box)
    (hm : s.temp_tracked_name = s.tracked_name) :
    reseed_or_predict s x y w h pred =
      ({ s with tracker := some (some ⟨x, y, w, h⟩) }, (⟨x, y, w, h⟩ : Box)) := by
  unfold reseed_or_predict
  rw [if_pos hm]

lemma reseed_neg (s : CameraState) (x y w h : Int) (pred : Box)
    (hm : ¬ s.temp_tracked_name = s.tracked_name) :
    reseed_or_predict s x y w h pred =
      ({ s with tracker := some (some pred) }, pred) := by
  unfold reseed_or_predict
  rw [if_neg hm]

/-- C5: whenever tracking is enabled and the snapshot contains an entry
labelled `trackedIdentity` (box `B` of the last such entry, as the loop
lets later matches win), the per-frame update reinitializes the tracker
with `B` and steers on `B`, never on the tracker's own prediction. -/
theorem C5_reseed_priority (s : CameraState) (fw fh : Nat)
    (dets : List Detection) (pred : Box) (n : String) (d : Detection)
    (hn : s.tracked_name = some n) (ht : s.is_tracking = true)
    (hd : lastMatch n dets = some d) :
    (draw_on_frame s fw fh (some dets) pred).steered = some (boxOfDet d) ∧
    (draw_on_frame s fw fh (some dets) pred).state.tracker =
      some (some (boxOfDet d)) ∧
    (draw_on_frame s fw fh (some dets) pred).error = none := by
  have h1 := ingest_lastMatch dets s hn hd
  rw [draw_on_frame_some]
  rw [frame_core_eq (ingest s dets) fw fh pred d.left d.top d.right d.bottom
    (by rw [ingest_is_tracking]; exact ht)
    (by rw [h1]) (by rw [h1]) (by rw [h1]) (by rw [h1])]
  have hname : (ingest s dets).tracked_name = some n := by
    rw [ingest_tracked_name]; exact hn
  rw [track_face_eq_of_some (ingest s dets) fw fh d.left d.top d.right d.bottom
    pred n hname]
  have htemp :
      (seed_if_unstarted (ingest s dets) d.left d.top d.right
        d.bottom).temp_tracked_name =
      (seed_if_unstarted (ingest s dets) d.left d.top d.right
        d.bottom).tracked_name := by
    rw [seed_temp, seed_tracked_name, h1, hn]
  rw [reseed_pos _ d.left d.top d.right d.bottom pred htemp]
  refine ⟨rfl, ?_, rfl⟩
  show (ptz_dispatch _ _ _ _ _ _).1.tracker = some (some (boxOfDet d))
  rw [ptz_dispatch_tracker]
  rfl

/-- Witness for C5: `camA` with a fresh snapshot containing "alice" at
box (left 10, top 20, right 30, bottom 40) reseeds and steers on that
box, not on the prediction `predC6`. -/
theorem C5_reseed_priority_witness :
    (draw_on_frame camA 800 600 (some [detAlice]) predC6).steered =
      some (boxOfDet detAlice) ∧
    (draw_on_frame camA 800 600 (some [detAlice]) predC6).state.tracker =
      some (some (boxOfDet detAlice)) ∧
    (draw_on_frame camA 800 600 (some [detAlice]) predC6).error = none :=
  C5_reseed_priority camA 800 600 [detAlice] predC6 "alice" detAlice
    (by decide) (by decide) (by decide)

/-- C6 amended: when no snapshot entry matches `trackedIdentity` but a
tracker is live, the tracker is advanced and its predicted box is used
for that frame's drawing and steering — but the prediction is *not*
stored back: `track_x/track_y/track_w/track_h` keep the cached
detection box. -/
theorem C6_predict_not_stored (s : CameraState) (fw fh : Nat)
    (dets : List Detection) (pred : Box) (n : String) (x y w h : Int)
    (hn : s.tracked_name = some n) (ht : s.is_tracking = true)
    (_hstart : s.track_started = true) (htemp : s.temp_tracked_name = none)
    (hm : lastMatch n dets = none)
    (hx : s.track_x = some x) (hy : s.track_y = some y)
    (hw : s.track_w = some w) (hh : s.track_h = some h) :
    (draw_on_frame s fw fh (some dets) pred).steered = some pred ∧
    (draw_on_frame s fw fh (some dets) pred).state.tracker = some (some pred) ∧
    (draw_on_frame s fw fh (some dets) pred).state.track_x = some x ∧
    (draw_on_frame s fw fh (some dets) pred).state.track_y = some y ∧
    (draw_on_frame s fw fh (some dets) pred).state.track_w = some w ∧
    (draw_on_frame s fw fh (some dets) pred).state.track_h = some h ∧
    (draw_on_frame s fw fh (some dets) pred).error = none := by
  have h1 := ingest_no_match dets s hn hm
  rw [draw_on_frame_some, h1]
  rw [frame_core_eq s fw fh pred x y w h ht hx hy hw hh]
  rw [track_face_eq_of_some s fw fh x y w h pred n hn]
  have hne : ¬ (seed_if_unstarted s x y w h).temp_tracked_name =
      (seed_if_unstarted s x y w h).tracked_name := by
    rw [seed_temp, seed_tracked_name, htemp, hn]
    simp
  rw [reseed_neg _ x y w h pred hne]
  refine ⟨rfl, ?_, ?_, ?_, ?_, ?_, rfl⟩
  · show (ptz_dispatch _ _ _ _ _ _).1.tracker = some (some pred)
    rw [ptz_dispatch_tracker]
  · show (ptz_dispatch _ _ _ _ _ _).1.track_x = some x
    rw [ptz_dispatch_track_x]
    show (seed_if_unstarted s x y w h).track_x = some x
    rw [seed_track_x]
    exact hx
  · show (ptz_dispatch _ _ _ _ _ _).1.track_y = some y
    rw [ptz_dispatch_track_y]
    show (seed_if_unstarted s x y w h).track_y = some y
    rw [seed_track_y]
    exact hy
  · show (ptz_dispatch _ _ _ _ _ _).1.track_w = some w
    rw [ptz_dispatch_track_w]
    show (seed_if_unstarted s x y w h).track_w = some w
    rw [seed_track_w]
    exact hw
  · show (ptz_dispatch _ _ _ _ _ _).1.track_h = some h
    rw [ptz_dispatch_track_h]
    show (seed_if_unstarted s x y w h).track_h = some h
    rw [seed_track_h]
    exact hh

/-- Witness for C6 amended at `camA` with an empty snapshot and
prediction `predC6`. -/
theorem C6_predict_not_stored_witness :
    (draw_on_frame camA 800 600 (some []) predC6).steered = some predC6 ∧
    (draw_on_frame camA 800 600 (some []) predC6).state.tracker =
      some (some predC6) ∧
    (draw_on_frame camA 800 600 (some []) predC6).state.track_x = some 200 ∧
    (draw_on_frame camA 800 600 (some []) predC6).state.track_y = some 100 ∧
    (draw_on_frame camA 800 600 (some []) predC6).state.track_w = some 700 ∧
    (draw_on_frame camA 800 600 (some []) predC6).state.track_h = some 500 ∧
    (draw_on_frame camA 800 600 (some []) predC6).error = none :=
  C6_predict_not_stored camA 800 600 [] predC6 "alice" 200 100 700 500
    (by decide) (by decide) (by decide) (by decide) (by decide)
    (by decide) (by decide) (by decide) (by decide)
